import Mathlib

/-!
Verification of the usb-rp2040 host-side PICOBOOT client (src/src/lib.rs).

The USB transport (rusb) is out of scope and is modelled as an oracle that
supplies the result of each transfer the code performs, in program order.
Bulk transfers performed by the code are recorded in a trace so that the
claims about which transfers happen, and in which order, can be stated.
All machine integers are modelled as `Nat` with explicit `% 2^w` where the
source relies on fixed-width behaviour.
-/

namespace USB2040Spec

/-- Transport / protocol errors surfaced by the code (the subset of
`rusb::Error` the library constructs or propagates). -/
inductive RusbError where
  | NoDevice
  | InvalidParam
  | Other
  | Busy
  | Timeout
  | Io
  deriving DecidableEq, Repr

/-- The outcome of a Rust call that can return `Ok`, return `Err`, or
panic (the source uses `.unwrap()` in several places, which aborts the
process instead of returning an error). -/
inductive Outcome (α : Type) where
  | ok : α → Outcome α
  | err : RusbError → Outcome α
  | panic : Outcome α
  deriving DecidableEq, Repr

/-- Little-endian encoding of a 32-bit value into four bytes
(`u32::to_le_bytes`). -/
def le32 (n : Nat) : List Nat :=
  [n % 256, n / 256 % 256, n / 65536 % 256, n / 16777216 % 256]

/-- Little-endian encoding of a 16-bit value into two bytes. -/
def le16 (n : Nat) : List Nat :=
  [n % 256, n / 256 % 256]

/-- Little-endian decoding of the four bytes of `l` starting at offset
`off` (reinterpretation of a byte buffer as a `u32` on a little-endian
host). Missing bytes read as 0, matching a zero-initialised buffer. -/
def le32get (l : List Nat) (off : Nat) : Nat :=
  l.getD off 0 + l.getD (off + 1) 0 * 256 + l.getD (off + 2) 0 * 65536 +
    l.getD (off + 3) 0 * 16777216

/-- `DeviceInformation` from src/src/lib.rs: endpoint and interface
metadata produced by the device matcher. -/
structure DeviceInformation where
  vid : Nat
  pid : Nat
  in_addr : Nat
  out_addr : Nat
  iface : Nat
  config : Nat
  setting : Nat
  deriving DecidableEq, Repr

/-- `CommandStatusCode` from src/src/lib.rs: the nine-value `repr(u32)`
status enumeration. -/
inductive CommandStatusCode where
  | Ok
  | UnknownCommand
  | InvalidCommandLength
  | InvalidTransferLength
  | InvalidAddress
  | BadAlignment
  | InterleavedWrite
  | Rebooting
  | UnknownError
  deriving DecidableEq, Repr

/-- The `repr(u32)` discriminant of each `CommandStatusCode` variant. -/
def CommandStatusCode.toNat : CommandStatusCode → Nat
  | .Ok => 0
  | .UnknownCommand => 1
  | .InvalidCommandLength => 2
  | .InvalidTransferLength => 3
  | .InvalidAddress => 4
  | .BadAlignment => 5
  | .InterleavedWrite => 6
  | .Rebooting => 7
  | .UnknownError => 8

/-- The partial inverse of the discriminant map: the `CommandStatusCode`
variant whose `repr(u32)` value is `n`, if any. -/
def CommandStatusCode.ofU32 : Nat → Option CommandStatusCode
  | 0 => some .Ok
  | 1 => some .UnknownCommand
  | 2 => some .InvalidCommandLength
  | 3 => some .InvalidTransferLength
  | 4 => some .InvalidAddress
  | 5 => some .BadAlignment
  | 6 => some .InterleavedWrite
  | 7 => some .Rebooting
  | 8 => some .UnknownError
  | _ => none

/-- `CommandStatus` from src/src/lib.rs. The source obtains this value by
reinterpreting a raw 16-byte buffer (`response.as_ptr() as *const
CommandStatus`), so the status-code field is modelled as the raw 32-bit
value read from bytes 4..8 of the buffer; `CommandStatusCode.ofU32`
relates it to the enumeration when it is in range. -/
structure CommandStatus where
  dToken : Nat
  dStatusCode : Nat
  bCmdId : Nat
  bInProgress : Nat
  deriving DecidableEq, Repr

/-- `PicobootCommand` from src/src/lib.rs: the 32-byte command packet. -/
structure PicobootCommand where
  magic : Nat
  token : Nat
  cmd_id : Nat
  cmd_size : Nat
  reserved : Nat
  transfer_length : Nat
  args : List Nat
  deriving DecidableEq, Repr

/-- The starting value of the process-wide `TOKEN` counter
(`Mutex::new(1)` in src/src/lib.rs). -/
def TOKEN_start : Nat := 1

/-- `PicobootCommand::new` from src/src/lib.rs: draws the current token
counter value as the packet token and stores the incremented value back.
The counter is a `u32`, hence the `% 2^32` on the increment. Takes and
returns the counter state explicitly. -/
def PicobootCommand.new (cmd_id cmd_size transfer_length : Nat)
    (args : List Nat) (tok : Nat) : PicobootCommand × Nat :=
  ({ magic := 0x431fd10B
   , token := tok
   , cmd_id := cmd_id
   , cmd_size := cmd_size
   , reserved := 0
   , transfer_length := transfer_length
   , args := args }, (tok + 1) % 2 ^ 32)

/-- `PicobootCommand::as_ptr` from src/src/lib.rs: the 32-byte wire image
of the packet — the `repr(C)` memory layout on a little-endian host:
magic, token, cmd_id, cmd_size, reserved, transfer_length, args. -/
def PicobootCommand.asBytes (c : PicobootCommand) : List Nat :=
  le32 c.magic ++ le32 c.token ++ [c.cmd_id % 256, c.cmd_size % 256] ++
    le16 c.reserved ++ le32 c.transfer_length ++ c.args

/-- A bulk transfer performed by the code, as recorded in the trace:
`writeBulk ep data` is `write_bulk(ep, data)`, `readBulk ep len` is
`read_bulk(ep, buf)` with a buffer of length `len`. -/
inductive UsbOp where
  | writeBulk : Nat → List Nat → UsbOp
  | readBulk : Nat → Nat → UsbOp
  deriving DecidableEq, Repr

/-- The bulk-transport oracle for one `write_out_cmd` call: the result of
each transfer the code may perform, in program order. For the data-phase
read, the oracle supplies the bytes the device delivers; the returned
count is the number of those bytes that fit the buffer, matching the
rusb contract that `read_bulk` fills a prefix of the buffer and returns
its length. -/
structure Transport where
  cmdWrite : Except RusbError Nat
  dataRead : Except RusbError (List Nat)
  dataWrite : Except RusbError Nat
  ack : Except RusbError Nat

/-- The result of `write_out_cmd`: the returned value, the final contents
of the caller's data buffer (mutated in place by a data-phase read), and
the trace of bulk transfers performed. -/
structure WocOut where
  result : Outcome Nat
  buf : Option (List Nat)
  trace : List UsbOp
  deriving Repr

/-- `USB2040::write_out_cmd` from src/src/lib.rs: the three-phase bulk
handshake. Local validation first (request-style commands with a nonzero
transfer length need a buffer of exactly that length), then the 32-byte
packet write, then the data phase if `transfer_length != 0` in the
direction given by bit 0x80 of the command id, then the one-byte
acknowledgement in the opposite direction. A zero-byte result aborts the
packet and data phases but is passed through in the acknowledgement
phase. -/
def write_out_cmd (di : DeviceInformation) (t : Transport)
    (cmd : PicobootCommand) (data : Option (List Nat)) : WocOut :=
  if cmd.cmd_id &&& 0x80 == 0 && cmd.transfer_length != 0 && data.isNone then
    ⟨.err .Other, data, []⟩
  else if cmd.cmd_id &&& 0x80 == 0 && cmd.transfer_length != 0 &&
      data.isSome && (data.getD []).length != cmd.transfer_length then
    ⟨.err .Other, data, []⟩
  else
    let pkt := cmd.asBytes
    let tr1 : List UsbOp := [.writeBulk di.out_addr pkt]
    match t.cmdWrite with
    | .error e => ⟨.err e, data, tr1⟩
    | .ok ret =>
      if ret == 0 then ⟨.err .Other, data, tr1⟩
      else
        -- data phase
        let phase2 : Outcome Unit × Option (List Nat) × List UsbOp :=
          if cmd.transfer_length != 0 then
            if cmd.cmd_id &&& 0x80 != 0 then
              match data with
              | none => (.panic, data, [])   -- data.unwrap() on None
              | some buf =>
                match t.dataRead with
                | .error e => (.err e, data, [.readBulk di.in_addr buf.length])
                | .ok bytes =>
                  let got := bytes.take buf.length
                  let newBuf := got ++ buf.drop got.length
                  if got.length == 0 then
                    (.err .Other, some newBuf, [.readBulk di.in_addr buf.length])
                  else
                    (.ok (), some newBuf, [.readBulk di.in_addr buf.length])
            else
              match data with
              | none => (.panic, data, [])   -- unreachable given the checks
              | some buf =>
                match t.dataWrite with
                | .error e => (.err e, data, [.writeBulk di.out_addr buf])
                | .ok ret2 =>
                  if ret2 == 0 then
                    (.err .Other, data, [.writeBulk di.out_addr buf])
                  else
                    (.ok (), data, [.writeBulk di.out_addr buf])
          else
            (.ok (), data, [])
        match phase2 with
        | (.err e, buf2, tr2) => ⟨.err e, buf2, tr1 ++ tr2⟩
        | (.panic, buf2, tr2) => ⟨.panic, buf2, tr1 ++ tr2⟩
        | (.ok _, buf2, tr2) =>
          -- acknowledgement phase: one byte, opposite direction
          if cmd.cmd_id &&& 0x80 != 0 then
            match t.ack with
            | .error e => ⟨.err e, buf2, tr1 ++ tr2 ++ [.writeBulk di.out_addr [0]]⟩
            | .ok ret3 => ⟨.ok ret3, buf2, tr1 ++ tr2 ++ [.writeBulk di.out_addr [0]]⟩
          else
            match t.ack with
            | .error e => ⟨.err e, buf2, tr1 ++ tr2 ++ [.readBulk di.in_addr 1]⟩
            | .ok ret3 => ⟨.ok ret3, buf2, tr1 ++ tr2 ++ [.readBulk di.in_addr 1]⟩

/-- The result of an engine operation: the returned value, the trace of
bulk transfers, and the token-counter state after the call. -/
structure EngineOut where
  result : Outcome Nat
  trace : List UsbOp
  tok : Nat
  deriving Repr

/-- `USB2040::reboot` from src/src/lib.rs: command id 0x2, declared size
0xc, transfer length 0, arguments dPC, dSP, dDelayMs little-endian in
the first 12 bytes of the zeroed 16-byte argument block. -/
def reboot (di : DeviceInformation) (t : Transport) (tok : Nat)
    (dPC dSP dDelayMs : Nat) : EngineOut :=
  let args := le32 dPC ++ le32 dSP ++ le32 dDelayMs ++ [0, 0, 0, 0]
  let p := PicobootCommand.new 0x2 0xc 0 args tok
  let w := write_out_cmd di t p.1 none
  ⟨w.result, w.trace, p.2⟩

/-- `USB2040::flash_erase` from src/src/lib.rs: command id 0x3, declared
size 0x8, transfer length 0; fails with `InvalidParam` before any packet
construction or transport call unless both address and size are
4096-aligned. -/
def flash_erase (di : DeviceInformation) (t : Transport) (tok : Nat)
    (dAddr dSize : Nat) : EngineOut :=
  if dAddr % 4096 != 0 || dSize % 4096 != 0 then
    ⟨.err .InvalidParam, [], tok⟩
  else
    let args := le32 dAddr ++ le32 dSize ++ [0, 0, 0, 0, 0, 0, 0, 0]
    let p := PicobootCommand.new 0x3 0x8 0 args tok
    let w := write_out_cmd di t p.1 none
    ⟨w.result, w.trace, p.2⟩

/-- The result of `USB2040::read`: the returned byte vector (on success),
the trace, and the token state. -/
structure ReadOut where
  result : Outcome (List Nat)
  trace : List UsbOp
  tok : Nat
  deriving Repr

/-- The tail of `USB2040::read`: the `?` operator on the handshake result
followed by `Ok(read_data)` — on success the (mutated) buffer is
returned, on error the error propagates. -/
def readFinish (w : WocOut) (tok2 : Nat) : ReadOut :=
  match w.result with
  | .ok _ => ⟨.ok (w.buf.getD []), w.trace, tok2⟩
  | .err e => ⟨.err e, w.trace, tok2⟩
  | .panic => ⟨.panic, w.trace, tok2⟩

/-- `USB2040::read` from src/src/lib.rs: command id 0x84, declared size
0x8, transfer length `dSize`; allocates a zero-filled buffer of `dSize`
bytes, runs the handshake with it, and on success returns the buffer. -/
def USB2040.read (di : DeviceInformation) (t : Transport) (tok : Nat)
    (dAddr dSize : Nat) : ReadOut :=
  let args := le32 dAddr ++ le32 dSize ++ [0, 0, 0, 0, 0, 0, 0, 0]
  let p := PicobootCommand.new 0x84 0x8 dSize args tok
  let read_data := List.replicate dSize 0
  readFinish (write_out_cmd di t p.1 (some read_data)) p.2

/-- `USB2040::write` from src/src/lib.rs: command id 0x5, declared size
0x8, transfer length `dSize`; fails with `InvalidParam` before any packet
construction or transport call unless both address and size are
256-aligned; the caller's buffer is passed to the handshake as the data
phase payload. -/
def USB2040.write (di : DeviceInformation) (t : Transport) (tok : Nat)
    (dAddr dSize : Nat) (data : List Nat) : EngineOut :=
  if dAddr % 256 != 0 || dSize % 256 != 0 then
    ⟨.err .InvalidParam, [], tok⟩
  else
    let args := le32 dAddr ++ le32 dSize ++ [0, 0, 0, 0, 0, 0, 0, 0]
    let p := PicobootCommand.new 0x5 0x8 dSize args tok
    let w := write_out_cmd di t p.1 (some data)
    ⟨w.result, w.trace, p.2⟩

/-- `USB2040::get_command_status` from src/src/lib.rs: a control-channel
read into a zero-initialised 16-byte buffer. The oracle supplies the
bytes the control transfer delivers (a transport error, or up to 16
bytes). A zero-byte result is rejected; otherwise the buffer is
reinterpreted as a `CommandStatus` with NO validation of the status-code
field — the raw 32-bit value at offset 4 is taken as-is. -/
def get_command_status (ctrl : Except RusbError (List Nat)) :
    Except RusbError CommandStatus :=
  match ctrl with
  | .error e => .error e
  | .ok bytes =>
    let got := bytes.take 16
    let response := got ++ List.replicate (16 - got.length) 0
    let ret := got.length
    if ret == 0 then .error .Other
    else
      .ok { dToken := le32get response 0
          , dStatusCode := le32get response 4
          , bCmdId := response.getD 8 0
          , bInProgress := response.getD 9 0 }

/-- An endpoint descriptor as consumed by `find_2040`: its transfer
direction (`dirIn = true` for IN) and its address. -/
structure EndpointDescriptor where
  dirIn : Bool
  address : Nat
  deriving DecidableEq, Repr

/-- An interface (alternate-setting) descriptor as consumed by
`find_2040`. -/
structure InterfaceDescriptor where
  class_code : Nat
  sub_class_code : Nat
  protocol_code : Nat
  interface_number : Nat
  setting_number : Nat
  endpoints : List EndpointDescriptor
  deriving DecidableEq, Repr

/-- A configuration descriptor as consumed by `find_2040`: its number and
its interfaces, each a list of alternate-setting descriptors. -/
structure ConfigDescriptor where
  number : Nat
  interfaces : List (List InterfaceDescriptor)
  deriving DecidableEq, Repr

/-- A device as exposed by the transport enumeration: the result of
reading its device descriptor (vendor id, product id), and the result of
reading each of its configuration descriptors (the source iterates
`0..num_configurations` and calls `config_descriptor(idx)?`). -/
structure UsbDevice where
  desc : Except RusbError (Nat × Nat)
  configs : List (Except RusbError ConfigDescriptor)

/-- The endpoint classification loop of `find_2040`: each IN endpoint
overwrites `in_addr`, each OUT endpoint overwrites `out_addr`, both
starting at 0. Returns `(in_addr, out_addr)`. -/
def scanEndpoints (eps : List EndpointDescriptor) : Nat × Nat :=
  eps.foldl
    (fun acc ep => if ep.dirIn then (ep.address, acc.2) else (acc.1, ep.address))
    (0, 0)

/-- The matching test of `find_2040` on one alternate-setting descriptor:
class vendor-specific (0xFF), sub-class 0, protocol 0. -/
def descriptorMatches (d : InterfaceDescriptor) : Bool :=
  d.class_code == 0xFF && d.sub_class_code == 0x00 && d.protocol_code == 0x00

/-- The `DeviceInformation` that `find_2040` builds from a matching
descriptor inside a given configuration. -/
def infoOfDescriptor (cfg : ConfigDescriptor) (d : InterfaceDescriptor) :
    DeviceInformation :=
  let sc := scanEndpoints d.endpoints
  { vid := 0x2e8a, pid := 0x0003, in_addr := sc.1, out_addr := sc.2
  , iface := d.interface_number, config := cfg.number
  , setting := d.setting_number }

/-- The descriptor scan of `find_2040` inside one configuration: the
first alternate-setting descriptor (across the interfaces, in order)
whose class triple matches. -/
def findInConfig (cfg : ConfigDescriptor) : Option DeviceInformation :=
  match cfg.interfaces.flatMap id |>.find? descriptorMatches with
  | some d => some (infoOfDescriptor cfg d)
  | none => none

/-- The configuration loop of `find_2040` for one device: walks the
configuration descriptors in order, propagating a descriptor-read error,
and returns the information from the first configuration containing a
matching descriptor. -/
def findInConfigs : List (Except RusbError ConfigDescriptor) →
    Except RusbError (Option DeviceInformation)
  | [] => .ok none
  | .error e :: _ => .error e
  | .ok cfg :: rest =>
    match findInConfig cfg with
    | some info => .ok (some info)
    | none => findInConfigs rest

/-- `find_2040` from src/src/lib.rs: scans the devices in order; a device
whose vendor id is not 0x2e8a or product id is not 0x0003 is skipped;
for a matching device, its configurations are walked and the first
vendor-specific (0xFF, 0, 0) alternate-setting descriptor produces the
returned `DeviceInformation`; errors reading any descriptor propagate;
if no device yields a match the result is `NoDevice`. -/
def find_2040 : List UsbDevice → Except RusbError DeviceInformation
  | [] => .error .NoDevice
  | d :: rest =>
    match d.desc with
    | .error e => .error e
    | .ok vp =>
      if vp.1 != 0x2e8a then find_2040 rest
      else if vp.2 != 0x0003 then find_2040 rest
      else
        match findInConfigs d.configs with
        | .error e => .error e
        | .ok (some info) => .ok info
        | .ok none => find_2040 rest

/-- A device as seen by the open loop of `try_find_and_open_2040`: the
result of reading its device descriptor and the result of opening it. -/
structure SessDevice where
  desc : Except RusbError (Nat × Nat)
  openRes : Except RusbError Unit

/-- The transport oracle for session construction: the result of each
step `try_find_and_open_2040` / `USB2040::new` performs, in program
order. -/
structure SessionTransport where
  findRes : Except RusbError DeviceInformation
  ctxNew : Except RusbError Unit
  devices : Except RusbError (List SessDevice)
  claim : Except RusbError Unit
  setConfig : Except RusbError Unit
  setSetting : Except RusbError Unit

/-- The device-enumeration loop of `try_find_and_open_2040`: walks the
devices, propagating descriptor-read and open errors, and records
whether a handle for a vid/pid-matching device was obtained (a later
match overwrites an earlier handle, so only "found at least one"
matters). -/
def openLoop (info : DeviceInformation) :
    List SessDevice → Bool → Except RusbError Bool
  | [], found => .ok found
  | d :: rest, found =>
    match d.desc with
    | .error e => .error e
    | .ok vp =>
      if vp.1 == info.vid && vp.2 == info.pid then
        match d.openRes with
        | .error e => .error e
        | .ok _ => openLoop info rest true
      else openLoop info rest found

/-- `USB2040::new` from src/src/lib.rs: claims the interface, sets the
active configuration, and selects the alternate setting, in that order —
each via `.unwrap()`, so any failure panics instead of returning an
error. On success the session (modelled by its `DeviceInformation`) is
returned. -/
def USB2040.new (t : SessionTransport) (info : DeviceInformation) :
    Outcome DeviceInformation :=
  match t.claim with
  | .error _ => .panic
  | .ok _ =>
    match t.setConfig with
    | .error _ => .panic
    | .ok _ =>
      match t.setSetting with
      | .error _ => .panic
      | .ok _ => .ok info

/-- `USB2040::try_find_and_open_2040` from src/src/lib.rs:
`find_2040().unwrap()` (panic on failure), then context creation and
device enumeration with `?` (errors returned), then `NoDevice` if no
handle was opened, then `USB2040::new` (panics on failure). -/
def try_find_and_open_2040 (t : SessionTransport) :
    Outcome DeviceInformation :=
  match t.findRes with
  | .error _ => .panic
  | .ok info =>
    match t.ctxNew with
    | .error e => .err e
    | .ok _ =>
      match t.devices with
      | .error e => .err e
      | .ok devs =>
        match openLoop info devs false with
        | .error e => .err e
        | .ok false => .err .NoDevice
        | .ok true => USB2040.new t info

/-- The parameters of one `PicobootCommand::new` call. -/
structure CmdParams where
  cmd_id : Nat
  cmd_size : Nat
  transfer_length : Nat
  args : List Nat

/-- A sequence of packet constructions threading the token-counter state:
each call is `PicobootCommand.new` with that call's parameters. Returns
the constructed packets and the final counter state. -/
def constructSeq (tok : Nat) : List CmdParams → List PicobootCommand × Nat
  | [] => ([], tok)
  | p :: ps =>
    let c := PicobootCommand.new p.cmd_id p.cmd_size p.transfer_length p.args tok
    let rest := constructSeq c.2 ps
    (c.1 :: rest.1, rest.2)

/-! Helper lemmas characterising `write_out_cmd` case by case. -/

/-- Response-style command (bit 0x80 set) with a nonzero transfer length:
packet write, data-phase IN read filling the buffer, OUT acknowledgement. -/
theorem write_out_cmd_in_data (di : DeviceInformation) (t : Transport)
    (cmd : PicobootCommand) (buf : List Nat) (r1 : Nat)
    (bytes : List Nat)
    (hbit : cmd.cmd_id &&& 0x80 ≠ 0) (htl : cmd.transfer_length ≠ 0)
    (hlen : buf.length = cmd.transfer_length)
    (h1 : t.cmdWrite = .ok r1) (h1n : r1 ≠ 0)
    (h2 : t.dataRead = .ok bytes) (hb : bytes ≠ []) :
    write_out_cmd di t cmd (some buf) =
      ⟨(match t.ack with | .error e => .err e | .ok r => .ok r),
       some (bytes.take buf.length ++ buf.drop (bytes.take buf.length).length),
       [.writeBulk di.out_addr cmd.asBytes,
        .readBulk di.in_addr cmd.transfer_length,
        .writeBulk di.out_addr [0]]⟩ := by
  have hgot : (bytes.take buf.length).length ≠ 0 := by
    simp only [List.length_take]
    rcases Nat.eq_zero_or_pos (min bytes.length buf.length) with h | h
    · rcases Nat.min_eq_zero_iff.mp h with h | h
      · exact absurd (List.length_eq_zero.mp h) hb
      · exact absurd (hlen ▸ h) htl
    · omega
  simp only [write_out_cmd, h1, h2, hlen]
  simp [hbit, htl, hgot, h1n]
  rw [if_neg hb]
  cases t.ack <;> rfl

/-- Request-style command (bit 0x80 clear) with a nonzero transfer length
and a correctly sized buffer: packet write, data-phase OUT write, IN
acknowledgement read. -/
theorem write_out_cmd_out_data (di : DeviceInformation) (t : Transport)
    (cmd : PicobootCommand) (buf : List Nat) (r1 r2 : Nat)
    (hbit : cmd.cmd_id &&& 0x80 = 0) (htl : cmd.transfer_length ≠ 0)
    (hlen : buf.length = cmd.transfer_length)
    (h1 : t.cmdWrite = .ok r1) (h1n : r1 ≠ 0)
    (h2 : t.dataWrite = .ok r2) (h2n : r2 ≠ 0) :
    write_out_cmd di t cmd (some buf) =
      ⟨(match t.ack with | .error e => .err e | .ok r => .ok r),
       some buf,
       [.writeBulk di.out_addr cmd.asBytes,
        .writeBulk di.out_addr buf,
        .readBulk di.in_addr 1]⟩ := by
  simp only [write_out_cmd, h1, h2, hlen]
  simp [hbit, htl, h1n, h2n]
  rw [if_pos hlen]
  cases t.ack <;> rfl

/-- Zero transfer length: packet write then the one-byte acknowledgement
in the direction given by bit 0x80, no data phase. -/
theorem write_out_cmd_no_data (di : DeviceInformation) (t : Transport)
    (cmd : PicobootCommand) (data : Option (List Nat)) (r1 : Nat)
    (htl : cmd.transfer_length = 0)
    (h1 : t.cmdWrite = .ok r1) (h1n : r1 ≠ 0) :
    write_out_cmd di t cmd data =
      ⟨(match t.ack with | .error e => .err e | .ok r => .ok r),
       data,
       [.writeBulk di.out_addr cmd.asBytes] ++
         (if cmd.cmd_id &&& 0x80 ≠ 0 then [.writeBulk di.out_addr [0]]
          else [.readBulk di.in_addr 1])⟩ := by
  by_cases hbit : cmd.cmd_id &&& 0x80 = 0
  · simp only [write_out_cmd, h1, htl]
    simp only [hbit, h1n]
    simp [hbit, h1n]
    cases t.ack <;> rfl
  · simp only [write_out_cmd, h1, htl]
    simp [hbit, h1n]
    cases t.ack <;> rfl

/-- C1: for every command issued through the engine (data buffer matching
the declared transfer length, absent only when that length is 0), the
bulk handshake is exactly three strictly ordered phases: the 32-byte
encoded packet written to OUT; then, if `transfer_length` is nonzero, a
data phase in the direction of bit 0x80 of the command id (set: read
`transfer_length` bytes from IN; clear: write `transfer_length` bytes to
OUT); finally a single-byte acknowledgement in the opposite direction
(set: write one byte to OUT; clear: read one byte from IN), performed
even when `transfer_length` is 0. -/
theorem C1_three_phase_handshake (di : DeviceInformation) (t : Transport)
    (cmd : PicobootCommand) (data : Option (List Nat))
    (r1 r2 r3 : Nat) (bytes : List Nat)
    (hargs : cmd.args.length = 16)
    (hnone : data = none → cmd.transfer_length = 0)
    (hsome : ∀ buf, data = some buf → buf.length = cmd.transfer_length)
    (h1 : t.cmdWrite = .ok r1) (h1n : r1 ≠ 0)
    (h2r : t.dataRead = .ok bytes) (hbne : bytes ≠ [])
    (h2w : t.dataWrite = .ok r2) (h2n : r2 ≠ 0)
    (h3 : t.ack = .ok r3) :
    cmd.asBytes.length = 32 ∧
    (write_out_cmd di t cmd data).trace =
      [.writeBulk di.out_addr cmd.asBytes] ++
      (if cmd.transfer_length = 0 then []
       else if cmd.cmd_id &&& 0x80 ≠ 0 then
         [.readBulk di.in_addr cmd.transfer_length]
       else [.writeBulk di.out_addr (data.getD [])]) ++
      (if cmd.cmd_id &&& 0x80 ≠ 0 then [.writeBulk di.out_addr [0]]
       else [.readBulk di.in_addr 1]) ∧
    (write_out_cmd di t cmd data).result = .ok r3 := by
  refine ⟨by simp [PicobootCommand.asBytes, le32, le16, hargs], ?_⟩
  by_cases htl : cmd.transfer_length = 0
  · rw [write_out_cmd_no_data di t cmd data r1 htl h1 h1n, h3]
    by_cases hbit : cmd.cmd_id &&& 0x80 = 0 <;> simp [htl, hbit]
  · rcases data with _ | buf
    · exact absurd (hnone rfl) htl
    · have hlen := hsome buf rfl
      by_cases hbit : cmd.cmd_id &&& 0x80 = 0
      · rw [write_out_cmd_out_data di t cmd buf r1 r2 hbit htl hlen h1 h1n h2w h2n, h3]
        simp [htl, hbit]
      · rw [write_out_cmd_in_data di t cmd buf r1 bytes hbit htl hlen h1 h1n h2r hbne, h3]
        simp [htl, hbit]

/-- Witness for `C1_three_phase_handshake`: a concrete response-style
command (id 0x84, transfer length 4) on a concrete transport. -/
theorem C1_three_phase_handshake_witness :
    (⟨0x431fd10B, 1, 0x84, 8, 0, 4, List.replicate 16 0⟩ :
        PicobootCommand).asBytes.length = 32 ∧
    (write_out_cmd ⟨0x2e8a, 3, 0x81, 1, 0, 1, 0⟩ ⟨.ok 32, .ok [7], .ok 4, .ok 1⟩
        ⟨0x431fd10B, 1, 0x84, 8, 0, 4, List.replicate 16 0⟩
        (some [0, 0, 0, 0])).trace =
      [.writeBulk 1 (⟨0x431fd10B, 1, 0x84, 8, 0, 4, List.replicate 16 0⟩ :
          PicobootCommand).asBytes] ++
      (if (4 : Nat) = 0 then []
       else if 0x84 &&& 0x80 ≠ 0 then [.readBulk 0x81 4]
       else [.writeBulk 1 ((some [0, 0, 0, 0]).getD [])]) ++
      (if 0x84 &&& 0x80 ≠ 0 then [.writeBulk 1 [0]] else [.readBulk 0x81 1]) ∧
    (write_out_cmd ⟨0x2e8a, 3, 0x81, 1, 0, 1, 0⟩ ⟨.ok 32, .ok [7], .ok 4, .ok 1⟩
        ⟨0x431fd10B, 1, 0x84, 8, 0, 4, List.replicate 16 0⟩
        (some [0, 0, 0, 0])).result = .ok 1 :=
  C1_three_phase_handshake ⟨0x2e8a, 3, 0x81, 1, 0, 1, 0⟩
    ⟨.ok 32, .ok [7], .ok 4, .ok 1⟩
    ⟨0x431fd10B, 1, 0x84, 8, 0, 4, List.replicate 16 0⟩ (some [0, 0, 0, 0])
    32 4 1 [7] (by decide) (by decide)
    (fun buf h => by cases h; rfl) rfl (by decide) rfl (by decide) rfl
    (by decide) rfl

/-- C8: `reboot(pc=0x20000000, sp=0x20040000, delay_ms=5000)` encodes a
32-byte packet: magic, token, command id 0x02, declared size 12, zero
reserved bytes, transfer length 0, and the little-endian argument bytes
`[00 00 00 20, 00 00 04 20, 88 13 00 00]` for PC, SP and the delay;
executing it performs exactly one bulk OUT write of that packet followed
by exactly one bulk IN read of one byte, with no data phase. -/
theorem C8_reboot_scenario (di : DeviceInformation) (t : Transport)
    (tok r1 r3 : Nat)
    (h1 : t.cmdWrite = .ok r1) (h1n : r1 ≠ 0) (h3 : t.ack = .ok r3) :
    (le32 0x431fd10B ++ le32 tok ++ [0x02, 0x0C] ++ le16 0 ++ le32 0 ++
        (le32 0x20000000 ++ le32 0x20040000 ++ le32 5000 ++
         [0x00, 0x00, 0x00, 0x00])).length = 32 ∧
    le32 0x20000000 = [0x00, 0x00, 0x00, 0x20] ∧
    le32 0x20040000 = [0x00, 0x00, 0x04, 0x20] ∧
    le32 5000 = [0x88, 0x13, 0x00, 0x00] ∧
    (reboot di t tok 0x20000000 0x20040000 5000).trace =
      [.writeBulk di.out_addr
         (le32 0x431fd10B ++ le32 tok ++ [0x02, 0x0C] ++ le16 0 ++ le32 0 ++
          (le32 0x20000000 ++ le32 0x20040000 ++ le32 5000 ++
           [0x00, 0x00, 0x00, 0x00])),
       .readBulk di.in_addr 1] ∧
    (reboot di t tok 0x20000000 0x20040000 5000).result = .ok r3 := by
  have hw := write_out_cmd_no_data di t
      ⟨0x431fd10B, tok, 0x2, 0xc, 0, 0,
        le32 0x20000000 ++ le32 0x20040000 ++ le32 5000 ++
          [0x00, 0x00, 0x00, 0x00]⟩
      none r1 rfl h1 h1n
  refine ⟨by simp [le32, le16], by norm_num [le32], by norm_num [le32],
    by norm_num [le32], ?_, ?_⟩
  · simp only [reboot, PicobootCommand.new]
    rw [hw]
    rw [if_neg (by simp only [ne_eq, Decidable.not_not]; decide)]
    simp [PicobootCommand.asBytes]
  · simp only [reboot, PicobootCommand.new]
    rw [hw, h3]

/-- Witness for `C8_reboot_scenario` at token 1 on a concrete transport. -/
theorem C8_reboot_scenario_witness :
    (le32 0x431fd10B ++ le32 1 ++ [0x02, 0x0C] ++ le16 0 ++ le32 0 ++
        (le32 0x20000000 ++ le32 0x20040000 ++ le32 5000 ++
         [0x00, 0x00, 0x00, 0x00])).length = 32 ∧
    le32 0x20000000 = [0x00, 0x00, 0x00, 0x20] ∧
    le32 0x20040000 = [0x00, 0x00, 0x04, 0x20] ∧
    le32 5000 = [0x88, 0x13, 0x00, 0x00] ∧
    (reboot ⟨0x2e8a, 3, 0x81, 1, 0, 1, 0⟩ ⟨.ok 32, .ok [], .ok 0, .ok 1⟩
      1 0x20000000 0x20040000 5000).trace =
      [.writeBulk 1
         (le32 0x431fd10B ++ le32 1 ++ [0x02, 0x0C] ++ le16 0 ++ le32 0 ++
          (le32 0x20000000 ++ le32 0x20040000 ++ le32 5000 ++
           [0x00, 0x00, 0x00, 0x00])),
       .readBulk 0x81 1] ∧
    (reboot ⟨0x2e8a, 3, 0x81, 1, 0, 1, 0⟩ ⟨.ok 32, .ok [], .ok 0, .ok 1⟩
      1 0x20000000 0x20040000 5000).result = .ok 1 :=
  C8_reboot_scenario ⟨0x2e8a, 3, 0x81, 1, 0, 1, 0⟩
    ⟨.ok 32, .ok [], .ok 0, .ok 1⟩ 1 32 1 rfl (by decide) rfl

/-- C9: every successful `read(addr, size)` returns exactly `size` bytes:
the prefix actually delivered by the bulk IN transfer followed by the
zero fill of the originally zero-initialised buffer — a short but
nonzero-length bulk read is not detected and is reported as success. -/
theorem C9_read_zero_fill (di : DeviceInformation) (t : Transport)
    (tok dAddr dSize : Nat) (bytes : List Nat) (r1 r3 : Nat)
    (h1 : t.cmdWrite = .ok r1) (h1n : r1 ≠ 0)
    (h2 : t.dataRead = .ok bytes) (hbne : dSize ≠ 0 → bytes ≠ [])
    (h3 : t.ack = .ok r3) :
    ∃ v, (USB2040.read di t tok dAddr dSize).result = .ok v ∧
      v = bytes.take dSize ++
        List.replicate (dSize - (bytes.take dSize).length) 0 ∧
      v.length = dSize := by
  have h84 : (0x84 : Nat) &&& 0x80 ≠ 0 := by decide
  by_cases hz : dSize = 0
  · subst hz
    have hw := write_out_cmd_no_data di t
        ⟨0x431fd10B, tok, 0x84, 0x8, 0, 0,
          le32 dAddr ++ le32 0 ++ [0, 0, 0, 0, 0, 0, 0, 0]⟩
        (some (List.replicate 0 0)) r1 rfl h1 h1n
    refine ⟨[], ?_, by simp, by simp⟩
    show (readFinish (write_out_cmd di t
        ⟨0x431fd10B, tok, 0x84, 0x8, 0, 0,
          le32 dAddr ++ le32 0 ++ [0, 0, 0, 0, 0, 0, 0, 0]⟩
        (some (List.replicate 0 0))) ((tok + 1) % 2 ^ 32)).result =
      Outcome.ok []
    rw [hw, h3]
    simp [readFinish]
  · have hlen : (List.replicate dSize (0 : Nat)).length = dSize := by simp
    have hw := write_out_cmd_in_data di t
        ⟨0x431fd10B, tok, 0x84, 0x8, 0, dSize,
          le32 dAddr ++ le32 dSize ++ [0, 0, 0, 0, 0, 0, 0, 0]⟩
        (List.replicate dSize 0) r1 bytes h84 hz hlen h1 h1n h2
        (hbne hz)
    refine ⟨bytes.take dSize ++
      List.replicate (dSize - (bytes.take dSize).length) 0, ?_, rfl, by
        simp only [List.length_append, List.length_take, List.length_replicate]
        omega⟩
    show (readFinish (write_out_cmd di t
        ⟨0x431fd10B, tok, 0x84, 0x8, 0, dSize,
          le32 dAddr ++ le32 dSize ++ [0, 0, 0, 0, 0, 0, 0, 0]⟩
        (some (List.replicate dSize 0))) ((tok + 1) % 2 ^ 32)).result =
      Outcome.ok (bytes.take dSize ++
        List.replicate (dSize - (bytes.take dSize).length) 0)
    rw [hw, h3]
    simp [readFinish, List.drop_replicate]

/-- Witness for `C9_read_zero_fill`: a 4-byte read where the transport
delivers only one byte; the call succeeds with a zero-filled tail. -/
theorem C9_read_zero_fill_witness :
    ∃ v, (USB2040.read ⟨0x2e8a, 3, 0x81, 1, 0, 1, 0⟩
        ⟨.ok 32, .ok [7], .ok 4, .ok 1⟩ 1 0 4).result = .ok v ∧
      v = [7].take 4 ++ List.replicate (4 - ([7].take 4).length) 0 ∧
      v.length = 4 :=
  C9_read_zero_fill ⟨0x2e8a, 3, 0x81, 1, 0, 1, 0⟩
    ⟨.ok 32, .ok [7], .ok 4, .ok 1⟩ 1 0 4 [7] 32 1
    rfl (by decide) rfl (fun _ => by decide) rfl

/-- C10: in the final acknowledgement phase a zero-byte transfer result
is not treated as an error: the call returns success carrying 0 — unlike
the command-packet phase and the data phase, where a zero-byte result
aborts the call with an error. -/
theorem C10_ack_zero_not_error (di : DeviceInformation) (t : Transport)
    (cmd : PicobootCommand) (data : Option (List Nat))
    (bytes : List Nat) (r1 r2 : Nat)
    (hnone : data = none → cmd.transfer_length = 0)
    (hsome : ∀ buf, data = some buf → buf.length = cmd.transfer_length) :
    (t.cmdWrite = .ok r1 → r1 ≠ 0 → t.dataRead = .ok bytes → bytes ≠ [] →
      t.dataWrite = .ok r2 → r2 ≠ 0 → t.ack = .ok 0 →
      (write_out_cmd di t cmd data).result = .ok 0) ∧
    (t.cmdWrite = .ok 0 →
      (write_out_cmd di t cmd data).result = .err .Other) ∧
    (cmd.cmd_id &&& 0x80 ≠ 0 → cmd.transfer_length ≠ 0 →
      t.cmdWrite = .ok r1 → r1 ≠ 0 → t.dataRead = .ok [] →
      (write_out_cmd di t cmd data).result = .err .Other) ∧
    (cmd.cmd_id &&& 0x80 = 0 → cmd.transfer_length ≠ 0 →
      t.cmdWrite = .ok r1 → r1 ≠ 0 → t.dataWrite = .ok 0 →
      (write_out_cmd di t cmd data).result = .err .Other) := by
  refine ⟨?_, ?_, ?_, ?_⟩
  · intro h1 h1n h2r hbne h2w h2n hack
    by_cases htl : cmd.transfer_length = 0
    · rw [write_out_cmd_no_data di t cmd data r1 htl h1 h1n, hack]
    · rcases data with _ | buf
      · exact absurd (hnone rfl) htl
      · have hlen := hsome buf rfl
        by_cases hbit : cmd.cmd_id &&& 0x80 = 0
        · rw [write_out_cmd_out_data di t cmd buf r1 r2 hbit htl hlen h1 h1n
            h2w h2n, hack]
        · rw [write_out_cmd_in_data di t cmd buf r1 bytes hbit htl hlen h1 h1n
            h2r hbne, hack]
  · intro h1
    rcases data with _ | buf
    · have htl := hnone rfl
      simp [write_out_cmd, htl, h1]
    · have hlen := hsome buf rfl
      simp [write_out_cmd, hlen, h1]
  · intro hbit htl h1 h1n h2
    rcases data with _ | buf
    · exact absurd (hnone rfl) htl
    · simp [write_out_cmd, hbit, htl, h1, h1n, h2]
  · intro hbit htl h1 h1n h2
    rcases data with _ | buf
    · exact absurd (hnone rfl) htl
    · have hlen := hsome buf rfl
      simp [write_out_cmd, hbit, htl, hlen, h1, h1n, h2]

/-- Witness for `C10_ack_zero_not_error`: concrete calls exercising each
conjunct — zero-byte acknowledgement returning success 0, and zero-byte
packet, IN-data and OUT-data phases each aborting with an error. -/
theorem C10_ack_zero_not_error_witness :
    (write_out_cmd ⟨0x2e8a, 3, 0x81, 1, 0, 1, 0⟩ ⟨.ok 32, .ok [7], .ok 4, .ok 0⟩
      ⟨0x431fd10B, 1, 0x84, 8, 0, 4, List.replicate 16 0⟩
      (some [0, 0, 0, 0])).result = .ok 0 ∧
    (write_out_cmd ⟨0x2e8a, 3, 0x81, 1, 0, 1, 0⟩ ⟨.ok 0, .ok [7], .ok 4, .ok 1⟩
      ⟨0x431fd10B, 1, 0x84, 8, 0, 4, List.replicate 16 0⟩
      (some [0, 0, 0, 0])).result = .err .Other ∧
    (write_out_cmd ⟨0x2e8a, 3, 0x81, 1, 0, 1, 0⟩ ⟨.ok 32, .ok [], .ok 4, .ok 1⟩
      ⟨0x431fd10B, 1, 0x84, 8, 0, 4, List.replicate 16 0⟩
      (some [0, 0, 0, 0])).result = .err .Other ∧
    (write_out_cmd ⟨0x2e8a, 3, 0x81, 1, 0, 1, 0⟩ ⟨.ok 32, .ok [7], .ok 0, .ok 1⟩
      ⟨0x431fd10B, 1, 0x05, 8, 0, 4, List.replicate 16 0⟩
      (some [0, 0, 0, 0])).result = .err .Other :=
  ⟨(C10_ack_zero_not_error ⟨0x2e8a, 3, 0x81, 1, 0, 1, 0⟩
      ⟨.ok 32, .ok [7], .ok 4, .ok 0⟩
      ⟨0x431fd10B, 1, 0x84, 8, 0, 4, List.replicate 16 0⟩ (some [0, 0, 0, 0])
      [7] 32 4 (by decide) (fun buf h => by cases h; rfl)).1
      rfl (by decide) rfl (by decide) rfl (by decide) rfl,
   (C10_ack_zero_not_error ⟨0x2e8a, 3, 0x81, 1, 0, 1, 0⟩
      ⟨.ok 0, .ok [7], .ok 4, .ok 1⟩
      ⟨0x431fd10B, 1, 0x84, 8, 0, 4, List.replicate 16 0⟩ (some [0, 0, 0, 0])
      [7] 32 4 (by decide) (fun buf h => by cases h; rfl)).2.1 rfl,
   (C10_ack_zero_not_error ⟨0x2e8a, 3, 0x81, 1, 0, 1, 0⟩
      ⟨.ok 32, .ok [], .ok 4, .ok 1⟩
      ⟨0x431fd10B, 1, 0x84, 8, 0, 4, List.replicate 16 0⟩ (some [0, 0, 0, 0])
      [7] 32 4 (by decide) (fun buf h => by cases h; rfl)).2.2.1
      (by decide) (by decide) rfl (by decide) rfl,
   (C10_ack_zero_not_error ⟨0x2e8a, 3, 0x81, 1, 0, 1, 0⟩
      ⟨.ok 32, .ok [7], .ok 0, .ok 1⟩
      ⟨0x431fd10B, 1, 0x05, 8, 0, 4, List.replicate 16 0⟩ (some [0, 0, 0, 0])
      [7] 32 4 (by decide) (fun buf h => by cases h; rfl)).2.2.2
      (by decide) (by decide) rfl (by decide) rfl⟩

/-- C2 counterexample: a 16-byte status buffer whose status-code field is
9 — outside the nine-value enumeration (`CommandStatusCode.ofU32 9 =
none`) — is decoded to a success value carrying the raw code, not to a
protocol error. -/
theorem C2_status_decode_counterexample :
    get_command_status
        (.ok [1, 0, 0, 0, 9, 0, 0, 0, 2, 0, 0, 0, 0, 0, 0, 0]) =
      .ok ⟨1, 9, 2, 0⟩ ∧
    CommandStatusCode.ofU32 9 = none := by
  exact ⟨rfl, rfl⟩

/-- C2 (amended): for every 16-byte buffer the decode succeeds and
returns the raw 32-bit status-code field read from bytes 4..8 without
any validation; a field of 0 corresponds to `Ok` and a field of 7 to
`Rebooting` under the enumeration's discriminants, but a value outside
the enumeration is passed through unchecked rather than surfacing as a
protocol error. -/
theorem C2_status_decode (bytes : List Nat) (h : bytes.length = 16) :
    ∃ st, get_command_status (.ok bytes) = .ok st ∧
      st.dStatusCode = le32get bytes 4 ∧
      (le32get bytes 4 = 0 →
        CommandStatusCode.ofU32 st.dStatusCode = some .Ok) ∧
      (le32get bytes 4 = 7 →
        CommandStatusCode.ofU32 st.dStatusCode = some .Rebooting) := by
  have htake : bytes.take 16 = bytes := by
    rw [← h]
    exact List.take_length bytes
  refine ⟨⟨le32get bytes 0, le32get bytes 4, bytes.getD 8 0, bytes.getD 9 0⟩,
    ?_, rfl, ?_, ?_⟩
  · simp [get_command_status, htake, h]
  · intro h0
    simp only [h0]
    rfl
  · intro h7
    simp only [h7]
    rfl

/-- Witness for `C2_status_decode` at a concrete buffer with status-code
field 7. -/
theorem C2_status_decode_witness :
    ∃ st, get_command_status
        (.ok [5, 0, 0, 0, 7, 0, 0, 0, 2, 1, 0, 0, 0, 0, 0, 0]) = .ok st ∧
      st.dStatusCode =
        le32get [5, 0, 0, 0, 7, 0, 0, 0, 2, 1, 0, 0, 0, 0, 0, 0] 4 ∧
      (le32get [5, 0, 0, 0, 7, 0, 0, 0, 2, 1, 0, 0, 0, 0, 0, 0] 4 = 0 →
        CommandStatusCode.ofU32 st.dStatusCode = some .Ok) ∧
      (le32get [5, 0, 0, 0, 7, 0, 0, 0, 2, 1, 0, 0, 0, 0, 0, 0] 4 = 7 →
        CommandStatusCode.ofU32 st.dStatusCode = some .Rebooting) :=
  C2_status_decode [5, 0, 0, 0, 7, 0, 0, 0, 2, 1, 0, 0, 0, 0, 0, 0]
    (by decide)

/-- C3 counterexample: `write` with `addr = 0`, `size = 0` and a 1-byte
buffer — the buffer length (1) differs from `size` (0), yet the call is
not rejected locally: it reaches the transport (nonempty trace) and
succeeds. -/
theorem C3_write_counterexample :
    (USB2040.write ⟨0x2e8a, 3, 0x81, 1, 0, 1, 0⟩
      ⟨.ok 32, .ok [], .ok 1, .ok 1⟩ 1 0 0 [0]).result = .ok 1 ∧
    (USB2040.write ⟨0x2e8a, 3, 0x81, 1, 0, 1, 0⟩
      ⟨.ok 32, .ok [], .ok 1, .ok 1⟩ 1 0 0 [0]).trace ≠ [] := by
  exact ⟨rfl, by decide⟩

/-- When the two local validation checks of `write_out_cmd` fail (their
Bool conditions are `false`), the bulk trace begins with the packet
write: the transport is reached no matter what it then answers. -/
theorem write_out_cmd_trace_head (di : DeviceInformation) (t : Transport)
    (cmd : PicobootCommand) (data : Option (List Nat))
    (hc1 : (cmd.cmd_id &&& 0x80 == 0 && cmd.transfer_length != 0 &&
      data.isNone) = false)
    (hc2 : (cmd.cmd_id &&& 0x80 == 0 && cmd.transfer_length != 0 &&
      data.isSome && ((data.getD []).length != cmd.transfer_length)) =
        false) :
    ∃ rest, (write_out_cmd di t cmd data).trace =
      .writeBulk di.out_addr cmd.asBytes :: rest := by
  unfold write_out_cmd
  simp only [hc1, hc2, Bool.false_eq_true, if_false]
  cases t.cmdWrite with
  | error e => exact ⟨[], rfl⟩
  | ok ret =>
    by_cases hr : (ret == 0) = true
    · simp only [hr, if_true]
      exact ⟨[], rfl⟩
    · simp only [Bool.not_eq_true] at hr
      simp only [hr, Bool.false_eq_true, if_false]
      split
      · exact ⟨_, rfl⟩
      · exact ⟨_, rfl⟩
      · split <;> cases t.ack <;> exact ⟨_, rfl⟩

/-- C3 (amended): `write(addr, size, data)` fails locally with
`InvalidParam` and an empty transport trace when `addr` or `size` is not
256-aligned; when aligned and `size ≠ 0` a buffer whose length differs
from `size` fails locally with an error and an empty trace; when aligned
and either the buffer has exactly `size` bytes or `size = 0` (in which
case the buffer length is not checked), the call proceeds to the
transport, its trace beginning with the packet write. -/
theorem C3_write_validation (di : DeviceInformation) (t : Transport)
    (tok dAddr dSize : Nat) (data : List Nat) :
    (dAddr % 256 ≠ 0 ∨ dSize % 256 ≠ 0 →
      USB2040.write di t tok dAddr dSize data =
        ⟨.err .InvalidParam, [], tok⟩) ∧
    (dAddr % 256 = 0 → dSize % 256 = 0 → dSize ≠ 0 → data.length ≠ dSize →
      USB2040.write di t tok dAddr dSize data =
        ⟨.err .Other, [], (tok + 1) % 2 ^ 32⟩) ∧
    (dAddr % 256 = 0 → dSize % 256 = 0 →
      (data.length = dSize ∨ dSize = 0) →
      ∃ rest, (USB2040.write di t tok dAddr dSize data).trace =
        .writeBulk di.out_addr (PicobootCommand.asBytes
          ⟨0x431fd10B, tok, 0x5, 0x8, 0, dSize,
            le32 dAddr ++ le32 dSize ++ [0, 0, 0, 0, 0, 0, 0, 0]⟩) ::
          rest) := by
  refine ⟨?_, ?_, ?_⟩
  · intro h
    unfold USB2040.write
    rcases h with h | h <;> simp [h]
  · intro ha hs hz hlen
    unfold USB2040.write
    simp only [ha, hs]
    simp only [bne_self_eq_false, Bool.or_self, Bool.false_eq_true, if_false]
    simp only [PicobootCommand.new]
    unfold write_out_cmd
    have h5 : (0x5 : Nat) &&& 0x80 = 0 := by decide
    simp [h5, hz, hlen]
  · intro ha hs hlen
    unfold USB2040.write
    simp only [ha, hs]
    simp only [bne_self_eq_false, Bool.or_self, Bool.false_eq_true, if_false]
    simp only [PicobootCommand.new]
    rcases hlen with hlen | hz
    · exact write_out_cmd_trace_head di t _ (some data)
        (by simp) (by simp [hlen])
    · subst hz
      exact write_out_cmd_trace_head di t _ (some data)
        (by simp) (by simp)

/-- Witness for `C3_write_validation`: a misaligned call fails locally, a
length-mismatched call fails locally, and an exact-length call reaches
the transport. -/
theorem C3_write_validation_witness :
    (USB2040.write ⟨0x2e8a, 3, 0x81, 1, 0, 1, 0⟩
        ⟨.ok 32, .ok [], .ok 1, .ok 1⟩ 1 7 256 (List.replicate 256 0) =
      ⟨.err .InvalidParam, [], 1⟩) ∧
    (USB2040.write ⟨0x2e8a, 3, 0x81, 1, 0, 1, 0⟩
        ⟨.ok 32, .ok [], .ok 1, .ok 1⟩ 1 0 256 [0] =
      ⟨.err .Other, [], (1 + 1) % 2 ^ 32⟩) ∧
    (∃ rest, (USB2040.write ⟨0x2e8a, 3, 0x81, 1, 0, 1, 0⟩
        ⟨.ok 32, .ok [], .ok 1, .ok 1⟩ 1 0 256
        (List.replicate 256 0)).trace =
      .writeBulk 1 (PicobootCommand.asBytes
        ⟨0x431fd10B, 1, 0x5, 0x8, 0, 256,
          le32 0 ++ le32 256 ++ [0, 0, 0, 0, 0, 0, 0, 0]⟩) :: rest) :=
  ⟨(C3_write_validation ⟨0x2e8a, 3, 0x81, 1, 0, 1, 0⟩
      ⟨.ok 32, .ok [], .ok 1, .ok 1⟩ 1 7 256 (List.replicate 256 0)).1
      (Or.inl (by decide)),
   (C3_write_validation ⟨0x2e8a, 3, 0x81, 1, 0, 1, 0⟩
      ⟨.ok 32, .ok [], .ok 1, .ok 1⟩ 1 0 256 [0]).2.1
      (by decide) (by decide) (by decide) (by decide),
   (C3_write_validation ⟨0x2e8a, 3, 0x81, 1, 0, 1, 0⟩
      ⟨.ok 32, .ok [], .ok 1, .ok 1⟩ 1 0 256 (List.replicate 256 0)).2.2
      (by decide) (by decide) (Or.inl (List.length_replicate ..))⟩

/-- C4: `flash_erase(addr, size)` fails locally with `InvalidParam`, an
empty transport trace and an untouched token counter when `addr` or
`size` is not 4096-aligned; when both are 4096-aligned the command
packet is constructed and sent — the trace begins with the bulk OUT
write of the encoded packet. -/
theorem C4_flash_erase_validation (di : DeviceInformation) (t : Transport)
    (tok dAddr dSize : Nat) :
    (dAddr % 4096 ≠ 0 ∨ dSize % 4096 ≠ 0 →
      flash_erase di t tok dAddr dSize = ⟨.err .InvalidParam, [], tok⟩) ∧
    (dAddr % 4096 = 0 → dSize % 4096 = 0 →
      ∃ rest, (flash_erase di t tok dAddr dSize).trace =
        .writeBulk di.out_addr (PicobootCommand.asBytes
          ⟨0x431fd10B, tok, 0x3, 0x8, 0, 0,
            le32 dAddr ++ le32 dSize ++ [0, 0, 0, 0, 0, 0, 0, 0]⟩) ::
          rest) := by
  refine ⟨?_, ?_⟩
  · intro h
    unfold flash_erase
    rcases h with h | h <;> simp [h]
  · intro ha hs
    unfold flash_erase
    simp only [ha, hs]
    simp only [bne_self_eq_false, Bool.or_self, Bool.false_eq_true, if_false]
    simp only [PicobootCommand.new]
    exact write_out_cmd_trace_head di t _ none (by simp) (by simp)

/-- Witness for `C4_flash_erase_validation`: a misaligned erase fails
locally and an aligned erase reaches the transport. -/
theorem C4_flash_erase_validation_witness :
    (flash_erase ⟨0x2e8a, 3, 0x81, 1, 0, 1, 0⟩
        ⟨.ok 32, .ok [], .ok 1, .ok 1⟩ 1 4096 100 =
      ⟨.err .InvalidParam, [], 1⟩) ∧
    (∃ rest, (flash_erase ⟨0x2e8a, 3, 0x81, 1, 0, 1, 0⟩
        ⟨.ok 32, .ok [], .ok 1, .ok 1⟩ 1 4096 8192).trace =
      .writeBulk 1 (PicobootCommand.asBytes
        ⟨0x431fd10B, 1, 0x3, 0x8, 0, 0,
          le32 4096 ++ le32 8192 ++ [0, 0, 0, 0, 0, 0, 0, 0]⟩) :: rest) :=
  ⟨(C4_flash_erase_validation ⟨0x2e8a, 3, 0x81, 1, 0, 1, 0⟩
      ⟨.ok 32, .ok [], .ok 1, .ok 1⟩ 1 4096 100).1 (Or.inr (by decide)),
   (C4_flash_erase_validation ⟨0x2e8a, 3, 0x81, 1, 0, 1, 0⟩
      ⟨.ok 32, .ok [], .ok 1, .ok 1⟩ 1 4096 8192).2
      (by decide) (by decide)⟩

/-- The tokens drawn by a sequence of packet constructions starting from
counter state `s` are `s, s+1, s+2, ...`, provided the counter does not
wrap (`s + n ≤ 2^32`). -/
theorem constructSeq_tokens (ps : List CmdParams) : ∀ s : Nat,
    s + ps.length ≤ 2 ^ 32 →
    (constructSeq s ps).1.map PicobootCommand.token =
      List.range' s ps.length := by
  induction ps with
  | nil => intro s _; rfl
  | cons p ps ih =>
    intro s h
    show s :: (constructSeq ((s + 1) % 2 ^ 32) ps).1.map PicobootCommand.token =
      s :: List.range' (s + 1) ps.length
    rcases ps with _ | ⟨q, qs⟩
    · rfl
    · have hlt : s + 1 < 2 ^ 32 := by
        simp only [List.length_cons] at h
        omega
      rw [Nat.mod_eq_of_lt hlt]
      rw [ih (s + 1) (by simp only [List.length_cons] at h ⊢; omega)]

/-- C5: the correlation-token counter starts at 1, and every packet
construction draws the current counter value as its token and increments
the counter: any sequence of constructions short enough not to wrap the
32-bit counter yields the tokens `1, 2, ..., n` — strictly increasing,
hence pairwise distinct. -/
theorem C5_token_monotone (ps : List CmdParams) (h : ps.length < 2 ^ 32) :
    (constructSeq TOKEN_start ps).1.map PicobootCommand.token =
      List.range' TOKEN_start ps.length ∧
    List.Pairwise (· < ·)
      ((constructSeq TOKEN_start ps).1.map PicobootCommand.token) ∧
    List.Pairwise (· ≠ ·)
      ((constructSeq TOKEN_start ps).1.map PicobootCommand.token) := by
  have he := constructSeq_tokens ps TOKEN_start (by
    simp only [TOKEN_start]
    omega)
  refine ⟨he, ?_, ?_⟩
  · rw [he]
    exact List.pairwise_lt_range' ..
  · rw [he]
    exact (List.pairwise_lt_range' ..).imp Nat.ne_of_lt

/-- Witness for `C5_token_monotone`: three constructions starting from
the initial counter draw the tokens 1, 2, 3. -/
theorem C5_token_monotone_witness :
    (constructSeq TOKEN_start
        [⟨0x1, 0x1, 0, List.replicate 16 0⟩, ⟨0x2, 0xc, 0, List.replicate 16 0⟩,
         ⟨0x3, 0x8, 0, List.replicate 16 0⟩]).1.map PicobootCommand.token =
      List.range' TOKEN_start 3 ∧
    List.Pairwise (· < ·)
      ((constructSeq TOKEN_start
        [⟨0x1, 0x1, 0, List.replicate 16 0⟩, ⟨0x2, 0xc, 0, List.replicate 16 0⟩,
         ⟨0x3, 0x8, 0, List.replicate 16 0⟩]).1.map PicobootCommand.token) ∧
    List.Pairwise (· ≠ ·)
      ((constructSeq TOKEN_start
        [⟨0x1, 0x1, 0, List.replicate 16 0⟩, ⟨0x2, 0xc, 0, List.replicate 16 0⟩,
         ⟨0x3, 0x8, 0, List.replicate 16 0⟩]).1.map PicobootCommand.token) :=
  C5_token_monotone
    [⟨0x1, 0x1, 0, List.replicate 16 0⟩, ⟨0x2, 0xc, 0, List.replicate 16 0⟩,
     ⟨0x3, 0x8, 0, List.replicate 16 0⟩] (by decide)

/-- C6 counterexample: a session construction in which every step up to
and including the device open succeeds but claiming the interface fails
with `Busy` does not return the transport error as a result value — it
panics (`claim_interface(...).unwrap()` in `USB2040::new`). -/
theorem C6_session_counterexample :
    try_find_and_open_2040
        ⟨.ok ⟨0x2e8a, 3, 0x81, 1, 0, 1, 0⟩, .ok (),
         .ok [⟨.ok (0x2e8a, 3), .ok ()⟩], .error .Busy, .ok (), .ok ()⟩ =
      .panic ∧
    try_find_and_open_2040
        ⟨.ok ⟨0x2e8a, 3, 0x81, 1, 0, 1, 0⟩, .ok (),
         .ok [⟨.ok (0x2e8a, 3), .ok ()⟩], .error .Busy, .ok (), .ok ()⟩ ≠
      .err .Busy := by
  exact ⟨rfl, by decide⟩

/-- C6 (amended): session construction performs device search, context
creation, enumeration/open, interface claim, configuration, and
alternate-setting selection in order, and no partially constructed
session ever reaches the caller (success implies every step succeeded);
however, only the context/enumeration/open failures are returned to the
caller as result values — a failing device search, interface claim,
configuration or alternate-setting step aborts by panic instead. -/
theorem C6_session_construction (t : SessionTransport) :
    (∀ info, try_find_and_open_2040 t = .ok info →
      t.findRes = .ok info ∧ t.ctxNew = .ok () ∧ t.claim = .ok () ∧
      t.setConfig = .ok () ∧ t.setSetting = .ok ()) ∧
    (∀ e, t.findRes = .error e → try_find_and_open_2040 t = .panic) ∧
    (∀ info e, t.findRes = .ok info → t.ctxNew = .error e →
      try_find_and_open_2040 t = .err e) ∧
    (∀ info devs e, t.findRes = .ok info → t.ctxNew = .ok () →
      t.devices = .ok devs → openLoop info devs false = .ok true →
      t.claim = .error e → try_find_and_open_2040 t = .panic) := by
  refine ⟨?_, ?_, ?_, ?_⟩
  · intro info hok
    unfold try_find_and_open_2040 at hok
    rcases hf : t.findRes with e | info0 <;> simp only [hf] at hok
    · exact absurd hok (by simp)
    rcases hc : t.ctxNew with e | u <;> simp only [hc] at hok
    · exact absurd hok (by simp)
    rcases hd : t.devices with e | devs <;> simp only [hd] at hok
    · exact absurd hok (by simp)
    rcases ho : openLoop info0 devs false with e | found <;>
      simp only [ho] at hok
    · exact absurd hok (by simp)
    rcases found with _ | _ <;> simp only [] at hok
    · exact absurd hok (by simp)
    unfold USB2040.new at hok
    rcases h1 : t.claim with e | u1 <;> simp only [h1] at hok
    · exact absurd hok (by simp)
    rcases h2 : t.setConfig with e | u2 <;> simp only [h2] at hok
    · exact absurd hok (by simp)
    rcases h3 : t.setSetting with e | u3 <;> simp only [h3] at hok
    · exact absurd hok (by simp)
    simp only [Outcome.ok.injEq] at hok
    subst hok
    exact ⟨rfl, by cases u; rfl, by cases u1; rfl,
      by cases u2; rfl, by cases u3; rfl⟩
  · intro e hf
    unfold try_find_and_open_2040
    simp only [hf]
  · intro info e hf hc
    unfold try_find_and_open_2040
    simp only [hf, hc]
  · intro info devs e hf hc hd ho hcl
    unfold try_find_and_open_2040 USB2040.new
    simp only [hf, hc, hd, ho, hcl]

/-- Witness for `C6_session_construction`: concrete transports exercising
an all-successful construction, a failing device search (panic), a
failing context creation (error result), and a failing interface claim
(panic). -/
theorem C6_session_construction_witness :
    ((⟨.ok ⟨0x2e8a, 3, 0x81, 1, 0, 1, 0⟩, .ok (),
        .ok [⟨.ok (0x2e8a, 3), .ok ()⟩], .ok (), .ok (), .ok ()⟩ :
      SessionTransport).findRes = .ok ⟨0x2e8a, 3, 0x81, 1, 0, 1, 0⟩ ∧
      (⟨.ok ⟨0x2e8a, 3, 0x81, 1, 0, 1, 0⟩, .ok (),
        .ok [⟨.ok (0x2e8a, 3), .ok ()⟩], .ok (), .ok (), .ok ()⟩ :
      SessionTransport).ctxNew = .ok () ∧
      (⟨.ok ⟨0x2e8a, 3, 0x81, 1, 0, 1, 0⟩, .ok (),
        .ok [⟨.ok (0x2e8a, 3), .ok ()⟩], .ok (), .ok (), .ok ()⟩ :
      SessionTransport).claim = .ok () ∧
      (⟨.ok ⟨0x2e8a, 3, 0x81, 1, 0, 1, 0⟩, .ok (),
        .ok [⟨.ok (0x2e8a, 3), .ok ()⟩], .ok (), .ok (), .ok ()⟩ :
      SessionTransport).setConfig = .ok () ∧
      (⟨.ok ⟨0x2e8a, 3, 0x81, 1, 0, 1, 0⟩, .ok (),
        .ok [⟨.ok (0x2e8a, 3), .ok ()⟩], .ok (), .ok (), .ok ()⟩ :
      SessionTransport).setSetting = .ok ()) ∧
    try_find_and_open_2040
        ⟨.error .NoDevice, .ok (), .ok [], .ok (), .ok (), .ok ()⟩ =
      .panic ∧
    try_find_and_open_2040
        ⟨.ok ⟨0x2e8a, 3, 0x81, 1, 0, 1, 0⟩, .error .Io, .ok [],
         .ok (), .ok (), .ok ()⟩ = .err .Io :=
  ⟨(C6_session_construction
      ⟨.ok ⟨0x2e8a, 3, 0x81, 1, 0, 1, 0⟩, .ok (),
       .ok [⟨.ok (0x2e8a, 3), .ok ()⟩], .ok (), .ok (), .ok ()⟩).1
      ⟨0x2e8a, 3, 0x81, 1, 0, 1, 0⟩ rfl,
   (C6_session_construction
      ⟨.error .NoDevice, .ok (), .ok [], .ok (), .ok (), .ok ()⟩).2.1
      .NoDevice rfl,
   (C6_session_construction
      ⟨.ok ⟨0x2e8a, 3, 0x81, 1, 0, 1, 0⟩, .error .Io, .ok [],
       .ok (), .ok (), .ok ()⟩).2.2.1
      ⟨0x2e8a, 3, 0x81, 1, 0, 1, 0⟩ .Io rfl rfl⟩

/-- C7 counterexample: a device tree whose single device matches the
vendor id, product id and class triple but whose matched interface has
no endpoints at all — no bulk-IN/bulk-OUT pair exists — yet the matcher
returns success, with both endpoint addresses left at 0, instead of a
NotFound-class error. -/
theorem C7_matcher_counterexample :
    find_2040 [⟨.ok (0x2e8a, 0x0003),
        [.ok ⟨1, [[⟨0xFF, 0, 0, 0, 0, []⟩]]⟩]⟩] =
      .ok ⟨0x2e8a, 0x0003, 0, 0, 0, 1, 0⟩ ∧
    (⟨0xFF, 0, 0, 0, 0, []⟩ : InterfaceDescriptor).endpoints = [] := by
  exact ⟨rfl, rfl⟩

/-- A device whose descriptor reads succeed: the device descriptor and
every configuration descriptor are available. -/
def deviceWf (d : UsbDevice) : Prop :=
  (∃ vp, d.desc = Except.ok vp) ∧ ∀ c ∈ d.configs, ∃ cfg, c = Except.ok cfg

/-- A configuration containing at least one alternate-setting descriptor
matching the vendor-specific class triple. -/
def cfgHasMatch (cfg : ConfigDescriptor) : Prop :=
  ∃ dsc ∈ cfg.interfaces.flatMap id, descriptorMatches dsc = true

/-- A device the matcher accepts: vendor id 0x2e8a, product id 0x0003,
and some readable configuration containing a matching descriptor. -/
def deviceMatches (d : UsbDevice) : Prop :=
  ∃ vp, d.desc = Except.ok vp ∧ vp.1 = 0x2e8a ∧ vp.2 = 0x0003 ∧
    ∃ c ∈ d.configs, ∃ cfg, c = Except.ok cfg ∧ cfgHasMatch cfg

/-- A successful per-configuration scan comes from a matching descriptor
in that configuration. -/
theorem findInConfig_some (cfg : ConfigDescriptor)
    (info : DeviceInformation) (h : findInConfig cfg = some info) :
    ∃ dsc ∈ cfg.interfaces.flatMap id, descriptorMatches dsc = true ∧
      info = infoOfDescriptor cfg dsc := by
  unfold findInConfig at h
  rcases hf : (cfg.interfaces.flatMap id).find? descriptorMatches with _ | d <;>
    rw [hf] at h
  · exact absurd h (by simp)
  · simp only [Option.some.injEq] at h
    exact ⟨d, List.mem_of_find?_eq_some hf, List.find?_some hf, h.symm⟩

/-- A failed per-configuration scan means no descriptor in that
configuration matches. -/
theorem findInConfig_none (cfg : ConfigDescriptor)
    (h : findInConfig cfg = none) : ¬ cfgHasMatch cfg := by
  rintro ⟨dsc, hmem, hdsc⟩
  unfold findInConfig at h
  rcases hf : (cfg.interfaces.flatMap id).find? descriptorMatches with _ | d <;>
    rw [hf] at h
  · exact absurd (List.find?_eq_none.mp hf dsc hmem) (by simp [hdsc])
  · exact absurd h (by simp)

/-- A matching configuration makes the per-configuration scan succeed. -/
theorem findInConfig_of_match (cfg : ConfigDescriptor)
    (h : cfgHasMatch cfg) : ∃ info, findInConfig cfg = some info := by
  rcases h with ⟨dsc, hmem, hdsc⟩
  unfold findInConfig
  rcases hf : (cfg.interfaces.flatMap id).find? descriptorMatches with _ | d
  · exact absurd (List.find?_eq_none.mp hf dsc hmem) (by simp [hdsc])
  · exact ⟨infoOfDescriptor cfg d, rfl⟩

/-- A successful configuration walk comes from a readable configuration
with a matching descriptor. -/
theorem findInConfigs_some (cs : List (Except RusbError ConfigDescriptor))
    (info : DeviceInformation) (h : findInConfigs cs = .ok (some info)) :
    ∃ c ∈ cs, ∃ cfg, c = Except.ok cfg ∧
      ∃ dsc ∈ cfg.interfaces.flatMap id, descriptorMatches dsc = true ∧
        info = infoOfDescriptor cfg dsc := by
  induction cs with
  | nil => exact absurd h (by simp [findInConfigs])
  | cons c rest ih =>
    rcases c with e | cfg
    · exact absurd h (by simp [findInConfigs])
    · rw [findInConfigs] at h
      rcases hf : findInConfig cfg with _ | info0 <;> rw [hf] at h
      · rcases ih h with ⟨c, hc, cfg1, hcfg, rest1⟩
        exact ⟨c, List.mem_cons_of_mem _ hc, cfg1, hcfg, rest1⟩
      · simp only [Except.ok.injEq, Option.some.injEq] at h
        subst h
        rcases findInConfig_some cfg info0 hf with ⟨dsc, hmem, hdsc, hinfo⟩
        exact ⟨Except.ok cfg, List.mem_cons_self .., cfg, rfl, dsc, hmem,
          hdsc, hinfo⟩

/-- A configuration walk over readable, matchless configurations returns
no information and no error. -/
theorem findInConfigs_none (cs : List (Except RusbError ConfigDescriptor))
    (h : ∀ c ∈ cs, ∃ cfg, c = Except.ok cfg ∧ ¬ cfgHasMatch cfg) :
    findInConfigs cs = .ok none := by
  induction cs with
  | nil => rfl
  | cons c rest ih =>
    rcases h c (List.mem_cons_self ..) with ⟨cfg, hc, hno⟩
    subst hc
    rw [findInConfigs]
    rcases hf : findInConfig cfg with _ | info0
    · exact ih fun c hc => h c (List.mem_cons_of_mem _ hc)
    · rcases findInConfig_some cfg info0 hf with ⟨dsc, hmem, hdsc, _⟩
      exact absurd ⟨dsc, hmem, hdsc⟩ hno

/-- A configuration walk over a list containing a readable matching
configuration never falls through with `.ok none`. -/
theorem findInConfigs_ne_none (cs : List (Except RusbError ConfigDescriptor))
    (h : ∃ c ∈ cs, ∃ cfg, c = Except.ok cfg ∧ cfgHasMatch cfg) :
    findInConfigs cs ≠ .ok none := by
  induction cs with
  | nil => rcases h with ⟨c, hc, _⟩; exact absurd hc (by simp)
  | cons c rest ih =>
    rcases h with ⟨c1, hc1, cfg1, hcfg1, hmatch1⟩
    rcases List.mem_cons.mp hc1 with rfl | hmem
    · subst hcfg1
      rw [findInConfigs]
      rcases hf : findInConfig cfg1 with _ | info0
      · exact absurd hmatch1 (findInConfig_none cfg1 hf)
      · simp
    · rcases c with e | cfg
      · simp [findInConfigs]
      · rw [findInConfigs]
        rcases hf : findInConfig cfg with _ | info0
        · exact ih ⟨c1, hmem, cfg1, hcfg1, hmatch1⟩
        · simp

/-- If every device is readable and none matches, the scan returns
`NoDevice`. -/
theorem find_2040_no_match (devs : List UsbDevice)
    (h : ∀ d ∈ devs, deviceWf d ∧ ¬ deviceMatches d) :
    find_2040 devs = .error .NoDevice := by
  induction devs with
  | nil => rfl
  | cons d rest ih =>
    rcases h d (List.mem_cons_self ..) with ⟨⟨⟨vp, hvp⟩, hwfc⟩, hnm⟩
    have hrest : find_2040 rest = .error .NoDevice :=
      ih fun d hd => h d (List.mem_cons_of_mem _ hd)
    by_cases hv1 : vp.1 = 0x2e8a
    · by_cases hv2 : vp.2 = 0x0003
      · have hnone : findInConfigs d.configs = .ok none := by
          apply findInConfigs_none
          intro c hc
          rcases hwfc c hc with ⟨cfg, hcfg⟩
          refine ⟨cfg, hcfg, fun hm => hnm ?_⟩
          exact ⟨vp, hvp, hv1, hv2, c, hc, cfg, hcfg, hm⟩
        simp only [find_2040, hvp, hnone, hv1, hv2, bne_self_eq_false,
          Bool.false_eq_true, if_false]
        exact hrest
      · simp only [find_2040, hvp, hv1, bne_self_eq_false,
          Bool.false_eq_true, if_false]
        rw [if_pos (bne_iff_ne.mpr hv2)]
        exact hrest
    · simp only [find_2040, hvp]
      rw [if_pos (bne_iff_ne.mpr hv1)]
      exact hrest

/-- A successful scan returns the information built from some matching
descriptor of some device with the fixed vendor/product id. -/
theorem find_2040_ok (devs : List UsbDevice) (info : DeviceInformation)
    (h : find_2040 devs = .ok info) :
    info.vid = 0x2e8a ∧ info.pid = 0x0003 ∧
    ∃ d ∈ devs, d.desc = Except.ok (0x2e8a, 0x0003) ∧
      ∃ c ∈ d.configs, ∃ cfg, c = Except.ok cfg ∧
        ∃ dsc ∈ cfg.interfaces.flatMap id, descriptorMatches dsc = true ∧
          info = infoOfDescriptor cfg dsc := by
  induction devs with
  | nil => exact absurd h (by simp [find_2040])
  | cons d rest ih =>
    rw [find_2040] at h
    rcases hvp : d.desc with e | vp <;> simp only [hvp] at h
    · exact absurd h (by simp)
    · by_cases hv1 : vp.1 = 0x2e8a
      · by_cases hv2 : vp.2 = 0x0003
        · simp only [hv1, hv2, bne_self_eq_false, Bool.false_eq_true,
            if_false] at h
          rcases hfc : findInConfigs d.configs with e | oi <;>
            simp only [hfc] at h
          · exact absurd h (by simp)
          · rcases oi with _ | info0 <;> try simp only [] at h
            · rcases ih h with ⟨h1, h2, dd, hdd, rest1⟩
              exact ⟨h1, h2, dd, List.mem_cons_of_mem _ hdd, rest1⟩
            · simp only [Except.ok.injEq] at h
              subst h
              rcases findInConfigs_some d.configs info0 hfc with
                ⟨c, hc, cfg, hcfg, dsc, hmem, hdsc, hinfo⟩
              have hvpe : vp = (0x2e8a, 0x0003) := by
                rw [← hv1, ← hv2]
              refine ⟨?_, ?_, d, List.mem_cons_self .., ?_,
                c, hc, cfg, hcfg, dsc, hmem, hdsc, hinfo⟩
              · rw [hinfo]; rfl
              · rw [hinfo]; rfl
              · rw [hvp, hvpe]
        · rw [if_neg (by simp [bne_iff_ne, hv1])] at h
          rw [if_pos (bne_iff_ne.mpr hv2)] at h
          rcases ih h with ⟨h1, h2, dd, hdd, rest1⟩
          exact ⟨h1, h2, dd, List.mem_cons_of_mem _ hdd, rest1⟩
      · rw [if_pos (bne_iff_ne.mpr hv1)] at h
        rcases ih h with ⟨h1, h2, dd, hdd, rest1⟩
        exact ⟨h1, h2, dd, List.mem_cons_of_mem _ hdd, rest1⟩

/-- The scan returns on the first matching device: later devices cannot
change the result. -/
theorem find_2040_first (d : UsbDevice) (rest : List UsbDevice)
    (h : deviceMatches d) : find_2040 (d :: rest) = find_2040 [d] := by
  rcases h with ⟨vp, hvp, hv1, hv2, hex⟩
  have hne := findInConfigs_ne_none d.configs hex
  simp only [find_2040, hvp, hv1, hv2, bne_self_eq_false,
    Bool.false_eq_true, if_false]
  rcases hfc : findInConfigs d.configs with e | oi
  · rfl
  · rcases oi with _ | info0
    · exact absurd hfc hne
    · rfl

/-- C7 (amended): the matcher returns on the first device/interface
descriptor matching vendor id 0x2e8a, product id 0x0003 and the
class/sub-class/protocol triple (0xFF, 0, 0) — later devices cannot
change the result — and returns `NoDevice` when no readable device
matches; success does not require any endpoint pair: the returned
endpoint addresses are those recorded by direction classification over
the matched descriptor's endpoints, both defaulting to 0 when absent. -/
theorem C7_matcher (devs : List UsbDevice) :
    ((∀ d ∈ devs, deviceWf d ∧ ¬ deviceMatches d) →
      find_2040 devs = .error .NoDevice) ∧
    (∀ info, find_2040 devs = .ok info →
      info.vid = 0x2e8a ∧ info.pid = 0x0003 ∧
      ∃ d ∈ devs, d.desc = Except.ok (0x2e8a, 0x0003) ∧
        ∃ c ∈ d.configs, ∃ cfg, c = Except.ok cfg ∧
          ∃ dsc ∈ cfg.interfaces.flatMap id, descriptorMatches dsc = true ∧
            info = infoOfDescriptor cfg dsc) ∧
    (∀ d rest, deviceMatches d → find_2040 (d :: rest) = find_2040 [d]) :=
  ⟨find_2040_no_match devs, fun info h => find_2040_ok devs info h,
   fun d rest h => find_2040_first d rest h⟩

/-- Witness for `C7_matcher`: a tree with only a non-matching device
scans to `NoDevice`, and a tree headed by a matching device (with a
bulk endpoint pair) ignores the devices after it. -/
theorem C7_matcher_witness :
    find_2040 [⟨.ok (5, 5), []⟩] = .error .NoDevice ∧
    find_2040 [⟨.ok (0x2e8a, 0x0003),
        [.ok ⟨1, [[⟨0xFF, 0, 0, 2, 0, [⟨true, 0x81⟩, ⟨false, 1⟩]⟩]]⟩]⟩,
      ⟨.ok (5, 5), []⟩] =
      find_2040 [⟨.ok (0x2e8a, 0x0003),
        [.ok ⟨1, [[⟨0xFF, 0, 0, 2, 0, [⟨true, 0x81⟩, ⟨false, 1⟩]⟩]]⟩]⟩] :=
  ⟨(C7_matcher [⟨.ok (5, 5), []⟩]).1
    (by
      intro d hd
      rcases List.mem_singleton.mp hd with rfl
      refine ⟨⟨⟨(5, 5), rfl⟩, fun c hc => absurd hc (by simp)⟩, ?_⟩
      rintro ⟨vp, hvp, hv1, -⟩
      simp only [Except.ok.injEq] at hvp
      rw [← hvp] at hv1
      exact absurd hv1 (by decide)),
   (C7_matcher [⟨.ok (5, 5), []⟩]).2.2
    ⟨.ok (0x2e8a, 0x0003),
      [.ok ⟨1, [[⟨0xFF, 0, 0, 2, 0, [⟨true, 0x81⟩, ⟨false, 1⟩]⟩]]⟩]⟩
    [⟨.ok (5, 5), []⟩]
    ⟨(0x2e8a, 0x0003), rfl, rfl, rfl,
      .ok ⟨1, [[⟨0xFF, 0, 0, 2, 0, [⟨true, 0x81⟩, ⟨false, 1⟩]⟩]]⟩,
      by simp,
      ⟨1, [[⟨0xFF, 0, 0, 2, 0, [⟨true, 0x81⟩, ⟨false, 1⟩]⟩]]⟩, rfl,
      ⟨0xFF, 0, 0, 2, 0, [⟨true, 0x81⟩, ⟨false, 1⟩]⟩, by simp, rfl⟩⟩

end USB2040Spec
